import Mathlib

/-!
Shallow embedding of the SOD dashboard's numeric core (src/app.py): the
curated-artifact loader `load_pr018_xy`, the finite-difference speed and
curvature proxies computed on the curated case-study page, and the
mode-gated upload/analyze controls of the sandbox page. Array data is
embedded as exact rationals; the square root applied by the proxies is the
real square root.
-/

/-- A decoded numpy array, as `np.load` hands it to the loader: its shape
tuple and its flat data in row-major (C) order. -/
structure NDArray where
  shape : List ℕ
  data : List ℚ
deriving Repr, DecidableEq

/-- Number of axes of the array (`arr.ndim`). -/
def NDArray.ndim (a : NDArray) : ℕ := a.shape.length

/-- Element `(i, j)` of a rank-2 array laid out row-major. -/
def NDArray.entry (a : NDArray) (i j : ℕ) : ℚ :=
  a.data.getD (i * a.shape.getD 1 0 + j) 0

/-- Column `j` of a rank-2 array, as `arr[:, j]`. -/
def NDArray.col (a : NDArray) (j : ℕ) : List ℚ :=
  (List.range (a.shape.getD 0 0)).map (fun i => a.entry i j)

/-- Python's rendering of a shape tuple, as interpolated into the loader's
error message: `(5, 3)`, and `(10,)` for a 1-tuple. -/
def shapeRepr (s : List ℕ) : String :=
  match s with
  | [n] => "(" ++ toString n ++ ",)"
  | _ => "(" ++ String.intercalate (", ") (s.map toString) ++ ")"

/-- The tabular series the loader builds: the `t`, `x`, `y` columns of the
DataFrame returned by `load_pr018_xy`. -/
structure TrajDF where
  t : List ℕ
  x : List ℚ
  y : List ℚ
deriving Repr, DecidableEq

/-- The function `load_pr018_xy` (src/app.py lines 13-19) after `np.load`
has decoded the artifact file: validate that the array is rank-2 with
exactly 2 columns (else raise `ValueError` with the offending shape in the
message), then build the DataFrame with columns `x`, `y` from the two
columns of the array and insert the synthesized frame-index column
`t = 0, 1, ..., N-1`. -/
def load_pr018_xy (arr : NDArray) : Except String TrajDF :=
  if arr.ndim ≠ 2 ∨ arr.shape.getD 1 0 ≠ 2 then
    Except.error ("Expected shape (N,2) for x,y; got " ++ shapeRepr arr.shape)
  else
    Except.ok { t := List.range (arr.shape.getD 0 0)
              , x := arr.col 0
              , y := arr.col 1 }

/-- The call `np.gradient(f)` on a 1-D array with unit spacing and the
default `edge_order = 1` (used at src/app.py lines 158-159 and 167-168):
numpy raises `ValueError` when the array has fewer than two elements;
otherwise `out[0] = f[1] - f[0]`, `out[-1] = f[-1] - f[-2]`, and the
interior is the central difference `out[1:-1] = (f[2:] - f[:-2]) / 2`. -/
def npGradient (f : List ℚ) : Option (List ℚ) :=
  if f.length < 2 then none
  else some ([f.getD 1 0 - f.getD 0 0]
    ++ List.zipWith (fun a b => (a - b) / 2) (f.drop 2) (f.take (f.length - 2))
    ++ [f.getD (f.length - 1) 0 - f.getD (f.length - 2) 0])

/-- The expression `np.sqrt(a*a + b*b)`, the pointwise combination both
proxies apply to the two differenced coordinate columns. -/
noncomputable def rootSumSq (a b : ℚ) : ℝ := Real.sqrt ((a * a + b * b : ℚ) : ℝ)

/-- Speed proxy of the curated page (src/app.py lines 158-160):
`np.sqrt(dx*dx + dy*dy)` with `dx = np.gradient(x)`, `dy = np.gradient(y)`. -/
noncomputable def speed_proxy (df : TrajDF) : Option (List ℝ) :=
  (npGradient df.x).bind fun dx =>
  (npGradient df.y).bind fun dy =>
  some (List.zipWith rootSumSq dx dy)

/-- Curvature proxy of the curated page (src/app.py lines 167-169):
`np.sqrt(ddx*ddx + ddy*ddy)` with `ddx = np.gradient(np.gradient(x))` and
`ddy = np.gradient(np.gradient(y))`. -/
noncomputable def curvature_proxy (df : TrajDF) : Option (List ℝ) :=
  ((npGradient df.x).bind npGradient).bind fun ddx =>
  ((npGradient df.y).bind npGradient).bind fun ddy =>
  some (List.zipWith rootSumSq ddx ddy)

/-- Modelled from the spec's words, for refinement comparison with
`npGradient`: the finite-difference value at sample `i` — central
difference with unit step in the interior, one-sided (forward/backward)
difference at the first and last samples. -/
def specDiffAt (f : List ℚ) (i : ℕ) : ℚ :=
  if i = 0 then f.getD 1 0 - f.getD 0 0
  else if i = f.length - 1 then f.getD (f.length - 1) 0 - f.getD (f.length - 2) 0
  else (f.getD (i + 1) 0 - f.getD (i - 1) 0) / 2

/-- The whole spec-side differenced series: `specDiffAt` at every index. -/
def specDiffList (f : List ℚ) : List ℚ := (List.range f.length).map (specDiffAt f)

/-- A constant trajectory series: `x = c1` and `y = c2` at every sample. -/
def constSeries (n : ℕ) (c1 c2 : ℚ) : TrajDF :=
  ⟨List.range n, List.replicate n c1, List.replicate n c2⟩

/-! Mode controller of the sandbox page (src/app.py lines 54-80). -/

/-- First entry of the Analysis Mode selectbox. -/
def sandboxOption : String := "Sandbox (Exploratory)"

/-- Second entry of the Analysis Mode selectbox. -/
def curatedOption : String := "Curated Case Study (Read-Only)"

/-- The options of the Analysis Mode selectbox, in order. -/
def modeOptions : List String := [sandboxOption, curatedOption]

/-- st.selectbox returns the first option until the user picks another, so
this is the initial selection. -/
def initialSelection : String := modeOptions.getD 0 ("")

/-- Line 58: whether the selected mode is the curated, read-only one. -/
def is_curated (mode : String) : Bool := mode == curatedOption

/-- The `disabled` flag of the file uploader (line 63). -/
def uploadDisabled (mode : String) : Bool := is_curated mode

/-- The `disabled` flag of the Analyze button (line 71). -/
def analyzeDisabled (mode : String) : Bool := is_curated mode

/-- The informational notice shown next to Analyze in sandbox mode
(st.info, line 80); in curated mode the lock warning is shown instead, so
there is no such notice. -/
def analyzeNotice (mode : String) : Option String :=
  if is_curated mode then none
  else some ("UI-only skeleton: Analyze does not run the engine yet.")

/-- The two-valued mode of the spec's Session/Mode Controller. -/
inductive Mode where
  | Sandbox
  | CuratedReadOnly
deriving DecidableEq, Repr

/-- The abstract mode a selection string stands for. -/
def modeOf (sel : String) : Mode :=
  if is_curated sel then Mode.CuratedReadOnly else Mode.Sandbox

/-! Concrete inputs used by the witnesses: `arr1` is the parabola-like
artifact of the spec's end-to-end scenario 1, `arr53` the shape-(5,3)
artifact of scenario 3, and the small trajectory frames exercise the
derivation path at lengths 2 and 3. -/

/-- Artifact with rows (0,0), (1,1), (2,4): shape (3, 2). -/
def arr1 : NDArray := ⟨[3, 2], [0, 0, 1, 1, 2, 4]⟩

/-- Artifact of shape (5, 3): three columns, hence rejected. -/
def arr53 : NDArray := ⟨[5, 3], List.replicate 15 0⟩

/-- The series loaded from `arr1`: t = x = [0,1,2], y = [0,1,4]. -/
def df4 : TrajDF := ⟨[0, 1, 2], [0, 1, 2], [0, 1, 4]⟩

/-- A length-2 series. -/
def dfW3 : TrajDF := ⟨[0, 1], [1, 2], [3, 5]⟩

/-- A length-3 series. -/
def dfW6 : TrajDF := ⟨[0, 1, 2], [2, 4, 8], [1, 3, 9]⟩

/-- A length-2 series. -/
def dfW10 : TrajDF := ⟨[0, 1], [0, 3], [0, 4]⟩

/-- A series with the same coordinates as `dfB` but another t column. -/
def dfA : TrajDF := ⟨[0, 1], [1, 2], [3, 5]⟩

/-- A series with the same coordinates as `dfA` but another t column. -/
def dfB : TrajDF := ⟨[7, 9], [1, 2], [3, 5]⟩

/-- The speed proxy derived from `df4`. -/
noncomputable def speedW4 : List ℝ :=
  List.zipWith rootSumSq (specDiffList df4.x) (specDiffList df4.y)

/-- The curvature proxy derived from `df4`. -/
noncomputable def curvW4 : List ℝ :=
  List.zipWith rootSumSq (specDiffList (specDiffList df4.x)) (specDiffList (specDiffList df4.y))

/-- The speed proxy derived from the constant series of length 2. -/
noncomputable def speedW7 : List ℝ :=
  List.zipWith rootSumSq (specDiffList (constSeries 2 3 4).x) (specDiffList (constSeries 2 3 4).y)

/-- The curvature proxy derived from the constant series of length 2. -/
noncomputable def curvW7 : List ℝ :=
  List.zipWith rootSumSq (specDiffList (specDiffList (constSeries 2 3 4).x))
    (specDiffList (specDiffList (constSeries 2 3 4).y))

/-- The speed proxy derived from `dfW10`. -/
noncomputable def speedW10 : List ℝ :=
  List.zipWith rootSumSq (specDiffList dfW10.x) (specDiffList dfW10.y)

/-- The curvature proxy derived from `dfW10`. -/
noncomputable def curvW10 : List ℝ :=
  List.zipWith rootSumSq (specDiffList (specDiffList dfW10.x))
    (specDiffList (specDiffList dfW10.y))

/-! Helper lemmas about `npGradient` and the spec-side difference series. -/

theorem specDiffList_length (f : List ℚ) : (specDiffList f).length = f.length := by
  simp [specDiffList]

theorem specDiffList_eq_range_map (f : List ℚ) :
    specDiffList f = (List.range f.length).map (specDiffAt f) := rfl

theorem npGradient_short (f : List ℚ) (h : f.length < 2) : npGradient f = none := by
  unfold npGradient
  rw [if_pos h]

/-- Refinement: on two or more samples, `npGradient` computes exactly the
spec's pointwise finite-difference series. -/
theorem npGradient_eq_specDiffList (f : List ℚ) (h : 2 ≤ f.length) :
    npGradient f = some (specDiffList f) := by
  have hmid : (List.zipWith (fun a b => (a - b) / 2) (f.drop 2) (f.take (f.length - 2))).length
      = f.length - 2 := by
    simp [List.length_zipWith]
  unfold npGradient
  rw [if_neg (by omega)]
  congr 1
  apply List.ext_getElem
  · simp only [List.length_append, List.length_singleton, hmid, specDiffList,
      List.length_map, List.length_range]
    omega
  intro n h1 h2
  simp only [specDiffList, List.getElem_map, List.getElem_range]
  have hn : n < f.length := by
    simpa [specDiffList] using h2
  by_cases hlast : n = f.length - 1
  · rw [List.getElem_append_right (by simp [hmid]; omega)]
    simp only [List.length_append, List.length_singleton, hmid]
    have e0 : n - (1 + (f.length - 2)) = 0 := by omega
    rw [specDiffAt, if_neg (by omega), if_pos hlast]
    simp [e0]
  · rw [List.getElem_append_left (by simp [hmid]; omega)]
    rcases Nat.eq_zero_or_pos n with h0 | hpos
    · subst h0
      rw [List.getElem_append_left (by simp)]
      simp [specDiffAt]
    · rw [List.getElem_append_right (by simpa using hpos)]
      simp only [List.length_singleton]
      rw [List.getElem_zipWith]
      rw [List.getElem_drop, List.getElem_take]
      rw [specDiffAt, if_neg (by omega), if_neg hlast]
      have e1 : 2 + (n - 1) = n + 1 := by omega
      rw [List.getD_eq_getElem _ _ (by omega : n + 1 < f.length),
          List.getD_eq_getElem _ _ (by omega : n - 1 < f.length)]
      congr 2
      exact getElem_congr e1

theorem speed_proxy_eq (df : TrajDF) (hx : 2 ≤ df.x.length) (hy : 2 ≤ df.y.length) :
    speed_proxy df = some (List.zipWith rootSumSq (specDiffList df.x) (specDiffList df.y)) := by
  unfold speed_proxy
  rw [npGradient_eq_specDiffList _ hx, npGradient_eq_specDiffList _ hy]
  simp [Option.some_bind]

theorem curvature_proxy_eq (df : TrajDF) (hx : 2 ≤ df.x.length) (hy : 2 ≤ df.y.length) :
    curvature_proxy df = some (List.zipWith rootSumSq
      (specDiffList (specDiffList df.x)) (specDiffList (specDiffList df.y))) := by
  unfold curvature_proxy
  rw [npGradient_eq_specDiffList _ hx, npGradient_eq_specDiffList _ hy]
  simp only [Option.some_bind]
  rw [npGradient_eq_specDiffList _ (by rw [specDiffList_length]; exact hx),
      npGradient_eq_specDiffList _ (by rw [specDiffList_length]; exact hy)]
  simp [Option.some_bind]

theorem speed_proxy_none (df : TrajDF) (h : df.x.length < 2) : speed_proxy df = none := by
  unfold speed_proxy
  rw [npGradient_short _ h]
  rfl

theorem curvature_proxy_none (df : TrajDF) (h : df.x.length < 2) : curvature_proxy df = none := by
  unfold curvature_proxy
  rw [npGradient_short _ h]
  rfl

theorem zipWith_map_same {α β : Type} (k : α → α → β) (f g : ℕ → α) :
    ∀ l : List ℕ, List.zipWith k (l.map f) (l.map g) = l.map fun i => k (f i) (g i)
  | [] => rfl
  | a :: l => by
    simp only [List.map_cons, List.zipWith_cons_cons]
    rw [zipWith_map_same k f g l]

theorem getD_replicate_of_lt (n j : ℕ) (c : ℚ) (h : j < n) :
    (List.replicate n c).getD j 0 = c := by
  rw [List.getD_eq_getElem _ _ (by simpa using h)]
  exact List.getElem_replicate _ _

theorem specDiffList_replicate (n : ℕ) (c : ℚ) (h : 2 ≤ n) :
    specDiffList (List.replicate n c) = List.replicate n 0 := by
  unfold specDiffList
  rw [List.length_replicate]
  rw [List.map_congr_left (g := fun _ => (0 : ℚ)) ?_]
  · simp [List.map_const']
  intro i hi
  rw [List.mem_range] at hi
  unfold specDiffAt
  rw [List.length_replicate]
  by_cases h0 : i = 0
  · rw [if_pos h0, getD_replicate_of_lt _ _ _ (by omega), getD_replicate_of_lt _ _ _ (by omega)]
    ring
  · rw [if_neg h0]
    by_cases hl : i = n - 1
    · rw [if_pos hl, getD_replicate_of_lt _ _ _ (by omega), getD_replicate_of_lt _ _ _ (by omega)]
      ring
    · rw [if_neg hl, getD_replicate_of_lt _ _ _ (by omega), getD_replicate_of_lt _ _ _ (by omega)]
      ring

theorem rootSumSq_zero : rootSumSq 0 0 = 0 := by
  unfold rootSumSq
  norm_num

theorem zipWith_rootSumSq_nonneg :
    ∀ (l1 l2 : List ℚ) (v : ℝ), v ∈ List.zipWith rootSumSq l1 l2 → 0 ≤ v := by
  intro l1
  induction l1 with
  | nil =>
    intro l2 v hv
    simp at hv
  | cons a l ih =>
    intro l2 v hv
    cases l2 with
    | nil => simp at hv
    | cons b l2' =>
      rw [List.zipWith_cons_cons, List.mem_cons] at hv
      rcases hv with rfl | hv
      · exact Real.sqrt_nonneg _
      · exact ih l2' v hv

/-! The claims. -/

/-- Claim C1: for every numeric array of shape (N, 2), the loader returns a
series of length N whose t column is 0, 1, ..., N-1 and whose x and y
columns are the first and second input columns, in order. -/
theorem load_two_column_array (arr : NDArray) (N : ℕ) (hshape : arr.shape = [N, 2]) :
    load_pr018_xy arr = Except.ok
      { t := List.range N
      , x := (List.range N).map (fun i => arr.data.getD (2 * i) 0)
      , y := (List.range N).map (fun i => arr.data.getD (2 * i + 1) 0) } := by
  rcases arr with ⟨sh, d⟩
  obtain rfl : sh = [N, 2] := hshape
  unfold load_pr018_xy NDArray.ndim NDArray.col NDArray.entry
  rw [if_neg (by simp [List.getD])]
  simp only [List.getD_cons_zero, List.getD_cons_succ, Except.ok.injEq, TrajDF.mk.injEq]
  refine ⟨trivial, ?_, ?_⟩
  · apply List.map_congr_left
    intro i _
    have e : i * 2 + 0 = 2 * i := by omega
    rw [e]
  · apply List.map_congr_left
    intro i _
    have e : i * 2 + 1 = 2 * i + 1 := by omega
    rw [e]

/-- Witness for C1 at the scenario-1 artifact with rows (0,0), (1,1), (2,4). -/
theorem load_two_column_array_witness :
    load_pr018_xy arr1 = Except.ok
      { t := List.range 3
      , x := (List.range 3).map (fun i => arr1.data.getD (2 * i) 0)
      , y := (List.range 3).map (fun i => arr1.data.getD (2 * i + 1) 0) } :=
  load_two_column_array arr1 3 rfl

/-- Claim C2: for every decoded array whose rank is not 2 or whose column
count is not 2, the loader fails with an error whose message includes the
offending shape, and never returns a series. -/
theorem load_rejects_bad_shape (arr : NDArray)
    (h : arr.ndim ≠ 2 ∨ arr.shape.getD 1 0 ≠ 2) :
    load_pr018_xy arr
      = Except.error ("Expected shape (N,2) for x,y; got " ++ shapeRepr arr.shape) ∧
    ∀ df : TrajDF, load_pr018_xy arr ≠ Except.ok df := by
  have he : load_pr018_xy arr
      = Except.error ("Expected shape (N,2) for x,y; got " ++ shapeRepr arr.shape) := by
    unfold load_pr018_xy
    rw [if_pos h]
  refine ⟨he, ?_⟩
  intro df hdf
  rw [he] at hdf
  exact Except.noConfusion hdf

/-- Witness for C2 at the scenario-3 artifact of shape (5, 3). -/
theorem load_rejects_bad_shape_witness :
    load_pr018_xy arr53
      = Except.error ("Expected shape (N,2) for x,y; got " ++ shapeRepr arr53.shape) ∧
    ∀ df : TrajDF, load_pr018_xy arr53 ≠ Except.ok df :=
  load_rejects_bad_shape arr53 (Or.inr (by norm_num [arr53, List.getD]))

/-- Claim C3 (amended): proxy derivation succeeds exactly on series of
length at least 2; for shorter series (length 0 or 1) `np.gradient` raises
instead of returning an all-zero series. -/
theorem proxy_defined_iff (df : TrajDF) (hlen : df.y.length = df.x.length) :
    ((speed_proxy df).isSome ↔ 2 ≤ df.x.length) ∧
    ((curvature_proxy df).isSome ↔ 2 ≤ df.x.length) := by
  constructor
  · constructor
    · intro hs
      by_contra hc
      push_neg at hc
      rw [speed_proxy_none df hc] at hs
      simp at hs
    · intro h2
      rw [speed_proxy_eq df h2 (by omega)]
      rfl
  · constructor
    · intro hs
      by_contra hc
      push_neg at hc
      rw [curvature_proxy_none df hc] at hs
      simp at hs
    · intro h2
      rw [curvature_proxy_eq df h2 (by omega)]
      rfl

/-- Witness for C3 (amended) at a length-2 series. -/
theorem proxy_defined_iff_witness :
    ((speed_proxy dfW3).isSome ↔ 2 ≤ dfW3.x.length) ∧
    ((curvature_proxy dfW3).isSome ↔ 2 ≤ dfW3.x.length) :=
  proxy_defined_iff dfW3 rfl

/-- Counterexample to C3 as stated: on the well-formed length-1 series
t = [0], x = [5], y = [7], both derivations fail (np.gradient raises)
instead of yielding the all-zero series of length 1. -/
theorem proxy_derivation_fails_on_singleton :
    speed_proxy ⟨[0], [5], [7]⟩ = none ∧ curvature_proxy ⟨[0], [5], [7]⟩ = none :=
  ⟨speed_proxy_none _ (by norm_num), curvature_proxy_none _ (by norm_num)⟩

/-- Claim C4: whenever the speed proxy is derived from a trajectory series,
it is the square root of the sum of squares of the central-difference
derivatives (unit step, one-sided at the first and last samples) of the x
and y columns, sample by sample. -/
theorem speed_proxy_is_central_difference (df : TrajDF) (s : List ℝ)
    (hlen : df.y.length = df.x.length) (h : speed_proxy df = some s) :
    s = (List.range df.x.length).map fun i =>
      Real.sqrt ((specDiffAt df.x i ^ 2 + specDiffAt df.y i ^ 2 : ℚ) : ℝ) := by
  have hx : 2 ≤ df.x.length := by
    by_contra hc
    push_neg at hc
    rw [speed_proxy_none df hc] at h
    exact Option.noConfusion h
  have hy : 2 ≤ df.y.length := by omega
  rw [speed_proxy_eq df hx hy] at h
  injection h with h
  subst h
  rw [specDiffList_eq_range_map df.x, specDiffList_eq_range_map df.y, hlen, zipWith_map_same]
  apply List.map_congr_left
  intro i _
  unfold rootSumSq
  congr 1
  push_cast
  ring

/-- Witness for C4 at the scenario-1 series. -/
theorem speed_proxy_is_central_difference_witness :
    speedW4 = (List.range df4.x.length).map fun i =>
      Real.sqrt ((specDiffAt df4.x i ^ 2 + specDiffAt df4.y i ^ 2 : ℚ) : ℝ) :=
  speed_proxy_is_central_difference df4 speedW4 rfl
    (speed_proxy_eq df4 (by norm_num [df4]) (by norm_num [df4]))

/-- Claim C5: whenever the curvature proxy is derived from a trajectory
series, it is sqrt(ddx^2 + ddy^2) where ddx, ddy apply the same
finite-difference operator twice to x and y independently. -/
theorem curvature_proxy_is_second_difference (df : TrajDF) (c : List ℝ)
    (hlen : df.y.length = df.x.length) (h : curvature_proxy df = some c) :
    c = (List.range df.x.length).map fun i =>
      Real.sqrt ((specDiffAt (specDiffList df.x) i ^ 2
                + specDiffAt (specDiffList df.y) i ^ 2 : ℚ) : ℝ) := by
  have hx : 2 ≤ df.x.length := by
    by_contra hc
    push_neg at hc
    rw [curvature_proxy_none df hc] at h
    exact Option.noConfusion h
  have hy : 2 ≤ df.y.length := by omega
  rw [curvature_proxy_eq df hx hy] at h
  injection h with h
  subst h
  rw [specDiffList_eq_range_map (specDiffList df.x), specDiffList_eq_range_map (specDiffList df.y),
      specDiffList_length, specDiffList_length, hlen, zipWith_map_same]
  apply List.map_congr_left
  intro i _
  unfold rootSumSq
  congr 1
  push_cast
  ring

/-- Witness for C5 at the scenario-1 series. -/
theorem curvature_proxy_is_second_difference_witness :
    curvW4 = (List.range df4.x.length).map fun i =>
      Real.sqrt ((specDiffAt (specDiffList df4.x) i ^ 2
                + specDiffAt (specDiffList df4.y) i ^ 2 : ℚ) : ℝ) :=
  curvature_proxy_is_second_difference df4 curvW4 rfl
    (curvature_proxy_eq df4 (by norm_num [df4]) (by norm_num [df4]))

/-- Claim C6 (amended): for every series of length N at least 2, both
derived proxies exist and have length exactly N (boundary samples are
one-sided values, not dropped); for N below 2 both derivations fail. -/
theorem proxy_series_lengths (df : TrajDF) (hlen : df.y.length = df.x.length) :
    (2 ≤ df.x.length →
      Option.map List.length (speed_proxy df) = some df.x.length ∧
      Option.map List.length (curvature_proxy df) = some df.x.length) ∧
    (df.x.length < 2 → speed_proxy df = none ∧ curvature_proxy df = none) := by
  constructor
  · intro h2
    rw [speed_proxy_eq df h2 (by omega), curvature_proxy_eq df h2 (by omega)]
    constructor
    · simp [List.length_zipWith, specDiffList_length, hlen]
    · simp [List.length_zipWith, specDiffList_length, hlen]
  · intro h2
    exact ⟨speed_proxy_none df h2, curvature_proxy_none df h2⟩

/-- Witness for C6 (amended) at a length-3 series. -/
theorem proxy_series_lengths_witness :
    (2 ≤ dfW6.x.length →
      Option.map List.length (speed_proxy dfW6) = some dfW6.x.length ∧
      Option.map List.length (curvature_proxy dfW6) = some dfW6.x.length) ∧
    (dfW6.x.length < 2 → speed_proxy dfW6 = none ∧ curvature_proxy dfW6 = none) :=
  proxy_series_lengths dfW6 rfl

/-- Counterexample to C6 as stated: on the length-1 series t = [0],
x = [3], y = [4], the speed derivation fails, so no proxy of length 1 is
produced. -/
theorem proxy_length_fails_on_singleton : speed_proxy ⟨[0], [3], [4]⟩ = none :=
  speed_proxy_none _ (by norm_num)

/-- Claim C7: whenever the proxies are derived from a constant series
(x = c1, y = c2 at every sample), both the speed proxy and the curvature
proxy are zero at every point. -/
theorem const_series_proxies_zero (n : ℕ) (c1 c2 : ℚ) (s c : List ℝ)
    (hs : speed_proxy (constSeries n c1 c2) = some s)
    (hc : curvature_proxy (constSeries n c1 c2) = some c) :
    s = List.replicate n 0 ∧ c = List.replicate n 0 := by
  have hxlen : (constSeries n c1 c2).x.length = n := by simp [constSeries]
  have hylen : (constSeries n c1 c2).y.length = n := by simp [constSeries]
  have h2 : 2 ≤ n := by
    by_contra hcn
    push_neg at hcn
    rw [speed_proxy_none _ (by omega)] at hs
    exact Option.noConfusion hs
  rw [speed_proxy_eq _ (by omega) (by omega)] at hs
  rw [curvature_proxy_eq _ (by omega) (by omega)] at hc
  have ex : (constSeries n c1 c2).x = List.replicate n c1 := rfl
  have ey : (constSeries n c1 c2).y = List.replicate n c2 := rfl
  rw [ex, ey] at hs hc
  simp only [specDiffList_replicate n c1 h2, specDiffList_replicate n c2 h2,
    specDiffList_replicate n 0 h2] at hs hc
  rw [List.zipWith_replicate, rootSumSq_zero] at hs hc
  simp only [min_self] at hs hc
  injection hs with hs
  injection hc with hc
  exact ⟨hs.symm, hc.symm⟩

/-- Witness for C7 at the constant series of length 2 with x = 3, y = 4. -/
theorem const_series_proxies_zero_witness :
    speedW7 = List.replicate 2 0 ∧ curvW7 = List.replicate 2 0 :=
  const_series_proxies_zero 2 3 4 speedW7 curvW7
    (speed_proxy_eq (constSeries 2 3 4) (by norm_num [constSeries]) (by norm_num [constSeries]))
    (curvature_proxy_eq (constSeries 2 3 4) (by norm_num [constSeries]) (by norm_num [constSeries]))

/-- Claim C8: the mode controller is a two-state machine with initial state
Sandbox; in CuratedReadOnly both the upload and the analyze action report
disabled, and in Sandbox both report enabled with Analyze additionally
surfacing a not-yet-implemented informational notice. -/
theorem mode_controller_gating :
    modeOf initialSelection = Mode.Sandbox ∧
    (∀ sel, modeOf sel = Mode.CuratedReadOnly ↔
      uploadDisabled sel = true ∧ analyzeDisabled sel = true ∧ analyzeNotice sel = none) ∧
    (∀ sel, modeOf sel = Mode.Sandbox ↔
      uploadDisabled sel = false ∧ analyzeDisabled sel = false ∧
        analyzeNotice sel = some ("UI-only skeleton: Analyze does not run the engine yet.")) := by
  refine ⟨?_, ?_, ?_⟩
  · rfl
  · intro sel
    unfold modeOf uploadDisabled analyzeDisabled analyzeNotice
    cases h : is_curated sel <;> simp [h]
  · intro sel
    unfold modeOf uploadDisabled analyzeDisabled analyzeNotice
    cases h : is_curated sel <;> simp [h]

/-- Claim C9: proxy derivation is deterministic — it is a function of the
series' coordinate columns alone, so two series with identical x and y
columns yield exactly equal speed and curvature proxies. -/
theorem proxies_depend_only_on_series (df1 df2 : TrajDF)
    (hx : df1.x = df2.x) (hy : df1.y = df2.y) :
    speed_proxy df1 = speed_proxy df2 ∧ curvature_proxy df1 = curvature_proxy df2 := by
  unfold speed_proxy curvature_proxy
  rw [hx, hy]
  exact ⟨rfl, rfl⟩

/-- Witness for C9 at two series that agree on x and y but not on t. -/
theorem proxies_depend_only_on_series_witness :
    speed_proxy dfA = speed_proxy dfB ∧ curvature_proxy dfA = curvature_proxy dfB :=
  proxies_depend_only_on_series dfA dfB rfl rfl

/-- Claim C10: whenever the proxies are derived, every value of the speed
proxy and every value of the curvature proxy is nonnegative (each is a
square root). -/
theorem speed_curvature_proxies_nonneg (df : TrajDF) (s c : List ℝ)
    (hs : speed_proxy df = some s) (hc : curvature_proxy df = some c) :
    (∀ v ∈ s, 0 ≤ v) ∧ (∀ v ∈ c, 0 ≤ v) := by
  constructor
  · unfold speed_proxy at hs
    rcases Option.bind_eq_some.mp hs with ⟨dx, _, hs2⟩
    rcases Option.bind_eq_some.mp hs2 with ⟨dy, _, hs3⟩
    injection hs3 with hs3
    subst hs3
    intro v hv
    exact zipWith_rootSumSq_nonneg dx dy v hv
  · unfold curvature_proxy at hc
    rcases Option.bind_eq_some.mp hc with ⟨ddx, _, hc2⟩
    rcases Option.bind_eq_some.mp hc2 with ⟨ddy, _, hc3⟩
    injection hc3 with hc3
    subst hc3
    intro v hv
    exact zipWith_rootSumSq_nonneg ddx ddy v hv

/-- Witness for C10 at a length-2 series. -/
theorem speed_curvature_proxies_nonneg_witness :
    (∀ v ∈ speedW10, 0 ≤ v) ∧ (∀ v ∈ curvW10, 0 ≤ v) :=
  speed_curvature_proxies_nonneg dfW10 speedW10 curvW10
    (speed_proxy_eq dfW10 (by norm_num [dfW10]) (by norm_num [dfW10]))
    (curvature_proxy_eq dfW10 (by norm_num [dfW10]) (by norm_num [dfW10]))
